import Mathlib

/-!
Shallow embedding of the two SDL3 tutorial programs of this repository:
`BasicWindowTutorial.cpp` (a minimal window demo) and `SDL_Test_File.cpp`
(the points/ship animation demo driven by the SDL app callbacks).

Floating-point values are modelled as exact rationals (for the point motion
and speeds) or reals (for the trigonometric rotation and the square roots of
the glow texture).  Randomness from SDL_randf / SDL_rand is modelled as
explicit parameters, constrained by the documented ranges of those functions
(SDL_randf returns a value in [0, 1)).
-/

namespace SDLTutorials

/-!
### BasicWindowTutorial.cpp

`main` initializes the video subsystem; on failure it logs and returns -1.
Otherwise it calls SDL_CreateWindow (whose result is stored but never
examined), delays 5000 ms, calls SDL_Quit and returns 0.  We model the
observable trace of one run; `initOk` is the outcome of SDL_Init and
`createOk` the outcome of SDL_CreateWindow (false meaning a NULL window).
-/

structure WindowDemoTrace where
  loggedFailure : Bool
  calledCreateWindow : Bool
  window : Option Unit
  delayMs : Nat
  calledQuit : Bool
  exitCode : Int
deriving DecidableEq

def windowDemoMain (initOk createOk : Bool) : WindowDemoTrace :=
  if !initOk then
    { loggedFailure := true, calledCreateWindow := false, window := none,
      delayMs := 0, calledQuit := false, exitCode := -1 }
  else
    { loggedFailure := false, calledCreateWindow := true,
      window := if createOk then some () else none,
      delayMs := 5000, calledQuit := true, exitCode := 0 }

/-!
### SDL_Test_File.cpp — constants and the points data model
-/

def WINDOW_WIDTH : ℚ := 640

def WINDOW_HEIGHT : ℚ := 480

def MIN_PIXELS_PER_SECOND : ℚ := 30

def MAX_PIXELS_PER_SECOND : ℚ := 960

def NUM_POINTS : ℕ := 500

/-- The speed expression `MIN_PIXELS_PER_SECOND + (SDL_randf() * (MAX_PIXELS_PER_SECOND - MIN_PIXELS_PER_SECOND))`, used both in SDL_AppInit and at each respawn in SDL_AppIterate; `r` stands for the SDL_randf draw. -/
def randSpeed (r : ℚ) : ℚ :=
  MIN_PIXELS_PER_SECOND + r * (MAX_PIXELS_PER_SECOND - MIN_PIXELS_PER_SECOND)

/-- One point as seeded by SDL_AppInit: position `(SDL_randf()*WINDOW_WIDTH, SDL_randf()*WINDOW_HEIGHT)` and speed `randSpeed`; `rx ry rs` are the three SDL_randf draws. -/
def initPoint (rx ry rs : ℚ) : (ℚ × ℚ) × ℚ :=
  ((rx * WINDOW_WIDTH, ry * WINDOW_HEIGHT), randSpeed rs)

/-- The random draws one point may consume during the per-frame update:
`coin` is `SDL_rand(2)` (true iff nonzero), `posR` the SDL_randf draw for the
respawn position, `speedR` the SDL_randf draw for the new speed. -/
structure Rnd where
  coin : Bool
  posR : ℚ
  speedR : ℚ

/-- The body of the per-point loop of SDL_AppIterate: advance both coordinates
by `elapsed * speed`, then, if either coordinate reached the window dimension,
respawn on the top edge (coin true) or the left edge (coin false) and draw a
new speed.  Returns the updated `(position, speed)` pair. -/
def updatePoint (elapsed : ℚ) (p : ℚ × ℚ) (speed : ℚ) (rnd : Rnd) : (ℚ × ℚ) × ℚ :=
  let distance := elapsed * speed
  let x := p.1 + distance
  let y := p.2 + distance
  if WINDOW_WIDTH ≤ x ∨ WINDOW_HEIGHT ≤ y then
    if rnd.coin then ((rnd.posR * WINDOW_WIDTH, 0), randSpeed rnd.speedR)
    else ((0, rnd.posR * WINDOW_HEIGHT), randSpeed rnd.speedR)
  else ((x, y), speed)

/-- The whole per-point loop of SDL_AppIterate over the (position, speed)
array, threading a stream of random draws indexed by point index. -/
def updateFrame (elapsed : ℚ) (rnd : ℕ → Rnd) : ℕ → List ((ℚ × ℚ) × ℚ) → List ((ℚ × ℚ) × ℚ)
  | _, [] => []
  | i, ps :: rest => updatePoint elapsed ps.1 ps.2 (rnd i) :: updateFrame elapsed rnd (i + 1) rest

/-- A point position lies strictly inside the 640x480 window. -/
def inBounds (p : ℚ × ℚ) : Prop :=
  0 ≤ p.1 ∧ p.1 < WINDOW_WIDTH ∧ 0 ≤ p.2 ∧ p.2 < WINDOW_HEIGHT

instance (p : ℚ × ℚ) : Decidable (inBounds p) := by
  unfold inBounds
  exact inferInstance

/-!
### SDL_AppEvent
-/

def SDL_EVENT_QUIT : ℕ := 256

inductive SDL_AppResult where
  | SDL_APP_CONTINUE
  | SDL_APP_SUCCESS
  | SDL_APP_FAILURE
deriving DecidableEq

/-- SDL_AppEvent: return SDL_APP_SUCCESS on a quit event, SDL_APP_CONTINUE on
anything else.  The event is represented by its numeric type field. -/
def SDL_AppEvent (eventType : ℕ) : SDL_AppResult :=
  if eventType = SDL_EVENT_QUIT then SDL_AppResult.SDL_APP_SUCCESS
  else SDL_AppResult.SDL_APP_CONTINUE

/-!
### The render sequence of SDL_AppIterate and the glow texture's alpha mod

SDL_AppIterate clears, draws the stars, draws the flame and ship triangles,
renders three copies of the glow texture, and only then calls
`SDL_SetTextureAlphaMod(glowTex, 40)` followed by SDL_RenderPresent.  The
texture's alpha modulation starts at SDL's default of 255 when the texture is
created (create_glow_texture never sets it).  We record, for each frame, the
alpha-modulation value in effect at each of the three glow-texture draws.
-/

inductive RenderOp where
  | clear
  | drawPoints
  | geometry
  | renderGlowTexture
  | setGlowAlphaMod (a : ℕ)
  | present
deriving DecidableEq

/-- The ordered render operations of one SDL_AppIterate call: clear, star
points, flame triangle, ship triangle, the three glow-texture copies
(thruster, ship body, ambient), the alpha-mod assignment, present. -/
def iterateRenderOps : List RenderOp :=
  [RenderOp.clear, RenderOp.drawPoints, RenderOp.geometry, RenderOp.geometry,
   RenderOp.renderGlowTexture, RenderOp.renderGlowTexture, RenderOp.renderGlowTexture,
   RenderOp.setGlowAlphaMod 40, RenderOp.present]

/-- Run a render-op list with the glow texture's current alpha mod `a`:
returns the list of alpha-mod values in effect at each glow-texture draw, and
the alpha mod left for the next frame. -/
def glowDrawAlphas : List RenderOp → ℕ → List ℕ × ℕ
  | [], a => ([], a)
  | RenderOp.renderGlowTexture :: rest, a =>
    let r := glowDrawAlphas rest a
    (a :: r.1, r.2)
  | RenderOp.setGlowAlphaMod v :: rest, _ => glowDrawAlphas rest v
  | _ :: rest, a => glowDrawAlphas rest a

/-- SDL's default texture alpha modulation, in effect from texture creation
until the first SDL_SetTextureAlphaMod call. -/
def defaultTextureAlphaMod : ℕ := 255

/-- The glow texture's alpha mod when frame `n` (0-based) starts rendering. -/
def alphaModBeforeFrame : ℕ → ℕ
  | 0 => defaultTextureAlphaMod
  | n + 1 => (glowDrawAlphas iterateRenderOps (alphaModBeforeFrame n)).2

/-- The alpha-mod values in effect at the three glow-texture draws of frame `n`. -/
def frameGlowDraws (n : ℕ) : List ℕ :=
  (glowDrawAlphas iterateRenderOps (alphaModBeforeFrame n)).1

/-!
### rotate_point and the ship triangle
-/

/-- rotate_point: translate to the center `(cx, cy)`, apply the standard 2D
rotation matrix for `angle`, translate back.  The C function mutates `x`, `y`
through pointers; here the rotated point is returned. -/
noncomputable def rotate_point (cx cy x y angle : ℝ) : ℝ × ℝ :=
  let s := Real.sin angle
  let c := Real.cos angle
  let tx := x - cx
  let ty := y - cy
  let rx := tx * c - ty * s
  let ry := tx * s + ty * c
  (rx + cx, ry + cy)

/-- Ship center x: `WINDOW_WIDTH * 0.5f`. -/
def shipCenterX : ℝ := 640 * 0.5

/-- Ship center y: `WINDOW_HEIGHT * 0.5f`. -/
def shipCenterY : ℝ := 480 * 0.5

/-- The ship's half-size constant `size = 20.0f`. -/
def shipSize : ℝ := 20

/-- Ship apex before rotation: `(cx, cy - size)`. -/
noncomputable def shipV1 : ℝ × ℝ := (shipCenterX, shipCenterY - shipSize)

/-- Ship base-left vertex before rotation: `(cx - size, cy + size)`. -/
noncomputable def shipV2 : ℝ × ℝ := (shipCenterX - shipSize, shipCenterY + shipSize)

/-- Ship base-right vertex before rotation: `(cx + size, cy + size)`. -/
noncomputable def shipV3 : ℝ × ℝ := (shipCenterX + shipSize, shipCenterY + shipSize)

/-- Euclidean distance between two planar points. -/
noncomputable def euclDist (p q : ℝ × ℝ) : ℝ :=
  Real.sqrt ((p.1 - q.1) ^ 2 + (p.2 - q.2) ^ 2)

/-!
### create_glow_texture — per-pixel alpha
-/

/-- The alpha written by create_glow_texture at pixel `(x, y)` of the
`2*radius` square texture: `dist = sqrt(dx*dx + dy*dy) / radius`, clamped to
at most 1, then `(Uint8)((1.0f - dist) * 255)`; the float-to-Uint8 cast
truncates, and the value lies in `[0, 255]`, so it is the floor. -/
noncomputable def glow_alpha (radius x y : ℕ) : ℤ :=
  let dx : ℝ := (x : ℝ) - (radius : ℝ)
  let dy : ℝ := (y : ℝ) - (radius : ℝ)
  let dist := Real.sqrt (dx * dx + dy * dy) / (radius : ℝ)
  let distClamped := if 1 < dist then 1 else dist
  ⌊(1 - distClamped) * 255⌋

/-- The spec's normalized distance of pixel `(x, y)` from the texture center:
Euclidean distance divided by the radius (before clamping). -/
noncomputable def normDist (radius x y : ℕ) : ℝ :=
  Real.sqrt (((x : ℝ) - (radius : ℝ)) ^ 2 + ((y : ℝ) - (radius : ℝ)) ^ 2) / (radius : ℝ)

/-!
### Concrete inputs used by witnesses
-/

/-- A concrete random stream: every draw has coin true and both SDL_randf
values equal to 0 (the low end of SDL_randf's range [0, 1)). -/
def rnd0 : ℕ → Rnd := fun _ => ⟨true, 0, 0⟩

/-- A concrete points array: one point well inside the window, and one whose
advance by one second overflows the window width. -/
def pts0 : List ((ℚ × ℚ) × ℚ) := [((0, 0), 30), ((600, 400), 100)]

/-!
### Theorems
-/

lemma glowDrawAlphas_iterate (a : ℕ) : glowDrawAlphas iterateRenderOps a = ([a, a, a], 40) := rfl

/-- Claim C7: the Event callback returns the success-termination signal
exactly on a quit-request event, and the continue signal on every other
event kind. -/
theorem appEvent_success_iff_quit (t : ℕ) :
    (SDL_AppEvent t = SDL_AppResult.SDL_APP_SUCCESS ↔ t = SDL_EVENT_QUIT) ∧
    (SDL_AppEvent t = SDL_AppResult.SDL_APP_CONTINUE ↔ t ≠ SDL_EVENT_QUIT) := by
  unfold SDL_AppEvent
  split <;> simp_all

/-- Claim C8: when video-subsystem initialization fails, the Window Demo logs
a diagnostic and returns -1 without creating a window and without the 5000 ms
wait; when it succeeds, the demo creates the window, waits 5000 ms, releases
the subsystem (SDL_Quit) and returns 0. -/
theorem windowDemo_init_branches (createOk : Bool) :
    ((windowDemoMain false createOk).loggedFailure = true ∧
      (windowDemoMain false createOk).calledCreateWindow = false ∧
      (windowDemoMain false createOk).delayMs = 0 ∧
      (windowDemoMain false createOk).calledQuit = false ∧
      (windowDemoMain false createOk).exitCode = -1) ∧
    ((windowDemoMain true createOk).loggedFailure = false ∧
      (windowDemoMain true createOk).calledCreateWindow = true ∧
      (windowDemoMain true createOk).delayMs = 5000 ∧
      (windowDemoMain true createOk).calledQuit = true ∧
      (windowDemoMain true createOk).exitCode = 0) := by
  cases createOk <;> decide

/-- Claim C10: the Window Demo never examines the result of window creation:
for every outcome of SDL_CreateWindow, including a NULL window, it still
waits the full 5000 ms, calls SDL_Quit and exits with status 0. -/
theorem windowDemo_ignores_createWindow (createOk : Bool) :
    (windowDemoMain true createOk).delayMs = 5000 ∧
    (windowDemoMain true createOk).calledQuit = true ∧
    (windowDemoMain true createOk).exitCode = 0 ∧
    (windowDemoMain true false).window = none ∧
    (windowDemoMain true false).delayMs = 5000 ∧
    (windowDemoMain true false).exitCode = 0 := by
  cases createOk <;> decide

/-- Counterexample to claim C2: on the first frame after initialization the
alpha-modulation value in effect at the three glow-texture draws is the SDL
default 255, not 40, because SDL_SetTextureAlphaMod is called only after the
three draws of the frame. -/
theorem firstFrame_glowAlphaMod_not_forty : frameGlowDraws 0 ≠ [40, 40, 40] := by
  decide

/-- Claim C2 (amended): on every frame after the first, the alpha modulation
in effect at the three glow-texture draws is 40; on the first frame it is the
default 255, since the per-frame assignment happens after the draws.  The
assignment is therefore redundant only from the second frame onward. -/
theorem frameGlowDraws_after_first (n : ℕ) :
    frameGlowDraws 0 = [255, 255, 255] ∧ frameGlowDraws (n + 1) = [40, 40, 40] := by
  refine ⟨by decide, ?_⟩
  have h : alphaModBeforeFrame (n + 1) = 40 := by
    simp [alphaModBeforeFrame, glowDrawAlphas_iterate]
  unfold frameGlowDraws
  rw [h, glowDrawAlphas_iterate]

/-- Claim C5: a point whose advance does not trigger the wrap check has both
coordinates increased by exactly `elapsed * speed` and keeps its speed. -/
theorem iterate_advance_exact (elapsed : ℚ) (p : ℚ × ℚ) (speed : ℚ) (rnd : Rnd)
    (hx : p.1 + elapsed * speed < WINDOW_WIDTH)
    (hy : p.2 + elapsed * speed < WINDOW_HEIGHT) :
    updatePoint elapsed p speed rnd = ((p.1 + elapsed * speed, p.2 + elapsed * speed), speed) := by
  unfold updatePoint
  rw [if_neg]
  push_neg
  exact ⟨hx, hy⟩

/-- Witness for C5: with elapsed = 1 s and speed = 100 px/s, a point at the
origin moves by exactly (100, 100) before the bounds check. -/
theorem iterate_advance_exact_witness :
    ((0 : ℚ) + 1 * 100 < WINDOW_WIDTH ∧ (0 : ℚ) + 1 * 100 < WINDOW_HEIGHT) ∧
    updatePoint 1 (0, 0) 100 (rnd0 0) = ((100, 100), 100) :=
  ⟨⟨by norm_num [WINDOW_WIDTH], by norm_num [WINDOW_HEIGHT]⟩,
    (iterate_advance_exact 1 (0, 0) 100 (rnd0 0) (by norm_num [WINDOW_WIDTH])
      (by norm_num [WINDOW_HEIGHT])).trans (by norm_num)⟩

lemma updatePoint_zero_elapsed (p : ℚ × ℚ) (speed : ℚ) (rnd : Rnd) (h : inBounds p) :
    updatePoint 0 p speed rnd = (p, speed) := by
  obtain ⟨h1, h2, h3, h4⟩ := h
  unfold updatePoint
  simp only [zero_mul, add_zero]
  rw [if_neg]
  push_neg
  exact ⟨h2, h4⟩

/-- Claim C9: with elapsed time zero, the per-point update of the Iterate
callback is the identity on the whole (position, speed) array, provided every
point is within bounds at entry. -/
theorem zero_elapsed_is_identity (rnd : ℕ → Rnd) (i : ℕ) (pts : List ((ℚ × ℚ) × ℚ))
    (hpts : ∀ ps ∈ pts, inBounds ps.1) :
    updateFrame 0 rnd i pts = pts := by
  induction pts generalizing i with
  | nil => rfl
  | cons ps rest ih =>
    rw [updateFrame,
      updatePoint_zero_elapsed ps.1 ps.2 (rnd i) (hpts ps (List.mem_cons_self _ _)),
      ih (i + 1) fun q hq => hpts q (List.mem_cons_of_mem _ hq)]

/-- Witness for C9: on a concrete in-bounds array, the zero-elapsed update
returns the array unchanged. -/
theorem zero_elapsed_is_identity_witness :
    (∀ ps ∈ pts0, inBounds ps.1) ∧ updateFrame 0 rnd0 0 pts0 = pts0 :=
  ⟨by decide, zero_elapsed_is_identity rnd0 0 pts0 (by decide)⟩

lemma randSpeed_bounds (r : ℚ) (h0 : 0 ≤ r) (h1 : r < 1) :
    MIN_PIXELS_PER_SECOND ≤ randSpeed r ∧ randSpeed r ≤ MAX_PIXELS_PER_SECOND := by
  unfold randSpeed MIN_PIXELS_PER_SECOND MAX_PIXELS_PER_SECOND
  constructor
  · nlinarith
  · nlinarith

/-- Claim C6: every speed the program assigns — at seeding in SDL_AppInit and
at any respawn in SDL_AppIterate — lies within [30, 960] px/s, for every
value of the SDL_randf draw in its range [0, 1). -/
theorem speed_in_range (rx ry rs elapsed : ℚ) (p : ℚ × ℚ) (speed : ℚ) (rnd : Rnd)
    (hrs0 : 0 ≤ rs) (hrs1 : rs < 1) (hr0 : 0 ≤ rnd.speedR) (hr1 : rnd.speedR < 1) :
    (MIN_PIXELS_PER_SECOND ≤ (initPoint rx ry rs).2 ∧
      (initPoint rx ry rs).2 ≤ MAX_PIXELS_PER_SECOND) ∧
    ((updatePoint elapsed p speed rnd).2 = speed ∨
      (MIN_PIXELS_PER_SECOND ≤ (updatePoint elapsed p speed rnd).2 ∧
        (updatePoint elapsed p speed rnd).2 ≤ MAX_PIXELS_PER_SECOND)) := by
  refine ⟨randSpeed_bounds rs hrs0 hrs1, ?_⟩
  simp only [updatePoint]
  split_ifs with h1 h2
  · exact Or.inr (randSpeed_bounds _ hr0 hr1)
  · exact Or.inr (randSpeed_bounds _ hr0 hr1)
  · exact Or.inl rfl

/-- Witness for C6: concrete draws of 0 give the seeded speed 30 and an
update that keeps the old speed 100. -/
theorem speed_in_range_witness :
    ((0 : ℚ) ≤ 0 ∧ (0 : ℚ) < 1 ∧ 0 ≤ (rnd0 0).speedR ∧ (rnd0 0).speedR < 1) ∧
    (MIN_PIXELS_PER_SECOND ≤ (initPoint 0 0 0).2 ∧
      (initPoint 0 0 0).2 ≤ MAX_PIXELS_PER_SECOND) ∧
    ((updatePoint 1 (0, 0) 100 (rnd0 0)).2 = 100 ∨
      (MIN_PIXELS_PER_SECOND ≤ (updatePoint 1 (0, 0) 100 (rnd0 0)).2 ∧
        (updatePoint 1 (0, 0) 100 (rnd0 0)).2 ≤ MAX_PIXELS_PER_SECOND)) :=
  ⟨⟨by decide, by decide, by decide, by decide⟩,
    speed_in_range 0 0 0 1 (0, 0) 100 (rnd0 0) (by decide) (by decide) (by decide) (by decide)⟩

lemma updatePoint_inBounds (elapsed : ℚ) (p : ℚ × ℚ) (speed : ℚ) (rnd : Rnd)
    (he : 0 ≤ elapsed) (hs : 0 ≤ speed) (hp : inBounds p)
    (hr0 : 0 ≤ rnd.posR) (hr1 : rnd.posR < 1) :
    inBounds (updatePoint elapsed p speed rnd).1 := by
  obtain ⟨hx0, hx1, hy0, hy1⟩ := hp
  have hd : 0 ≤ elapsed * speed := mul_nonneg he hs
  simp only [updatePoint]
  unfold inBounds WINDOW_WIDTH WINDOW_HEIGHT at *
  split_ifs with h1 h2
  · refine ⟨mul_nonneg hr0 (by norm_num), ?_, le_refl 0, by norm_num⟩
    show rnd.posR * 640 < 640
    nlinarith
  · refine ⟨le_refl 0, by norm_num, mul_nonneg hr0 (by norm_num), ?_⟩
    show rnd.posR * 480 < 480
    nlinarith
  · push_neg at h1
    exact ⟨add_nonneg hx0 hd, h1.1, add_nonneg hy0 hd, h1.2⟩

/-- Claim C1: if every point starts the frame inside the 640x480 window (and
the program invariants hold: nonnegative elapsed time, nonnegative speeds,
SDL_randf draws in [0, 1)), then after the per-point wrap check of
SDL_AppIterate every point again satisfies 0 ≤ x < 640 and 0 ≤ y < 480. -/
theorem points_in_bounds_after_wrap (elapsed : ℚ) (rnd : ℕ → Rnd) (i : ℕ)
    (pts : List ((ℚ × ℚ) × ℚ)) (he : 0 ≤ elapsed)
    (hpts : ∀ ps ∈ pts, inBounds ps.1 ∧ 0 ≤ ps.2)
    (hrnd : ∀ j, 0 ≤ (rnd j).posR ∧ (rnd j).posR < 1) :
    ∀ q ∈ updateFrame elapsed rnd i pts, inBounds q.1 := by
  induction pts generalizing i with
  | nil =>
    intro q hq
    simp [updateFrame] at hq
  | cons ps rest ih =>
    intro q hq
    rw [updateFrame] at hq
    rcases List.mem_cons.mp hq with h | h
    · rw [h]
      exact updatePoint_inBounds elapsed ps.1 ps.2 (rnd i) he
        (hpts ps (List.mem_cons_self _ _)).2 (hpts ps (List.mem_cons_self _ _)).1
        (hrnd i).1 (hrnd i).2
    · exact ih (i + 1) (fun r hr => hpts r (List.mem_cons_of_mem _ hr)) q h

/-- Witness for C1: one frame on a concrete array containing an overflowing
point leaves every point inside the window. -/
theorem points_in_bounds_after_wrap_witness :
    ((0 : ℚ) ≤ 1 ∧ (∀ ps ∈ pts0, inBounds ps.1 ∧ (0 : ℚ) ≤ ps.2) ∧
      (∀ j, 0 ≤ (rnd0 j).posR ∧ (rnd0 j).posR < 1)) ∧
    ∀ q ∈ updateFrame 1 rnd0 0 pts0, inBounds q.1 :=
  ⟨⟨by decide, by decide, fun j => ⟨le_refl 0, zero_lt_one⟩⟩,
    points_in_bounds_after_wrap 1 rnd0 0 pts0 (by decide) (by decide)
      (fun j => ⟨le_refl 0, zero_lt_one⟩)⟩

lemma rotate_point_isometry (cx cy angle : ℝ) (p q : ℝ × ℝ) :
    euclDist (rotate_point cx cy p.1 p.2 angle) (rotate_point cx cy q.1 q.2 angle) =
      euclDist p q := by
  simp only [euclDist, rotate_point]
  congr 1
  have h := Real.sin_sq_add_cos_sq angle
  linear_combination ((p.1 - q.1) ^ 2 + (p.2 - q.2) ^ 2) * h

/-- Claim C3: for every rotation angle, rotate_point about the window center
preserves the pairwise Euclidean distances between the ship triangle's three
vertices: the rotation is a rigid transform. -/
theorem ship_rotation_rigid (angle : ℝ) :
    euclDist (rotate_point shipCenterX shipCenterY shipV1.1 shipV1.2 angle)
        (rotate_point shipCenterX shipCenterY shipV2.1 shipV2.2 angle) = euclDist shipV1 shipV2 ∧
    euclDist (rotate_point shipCenterX shipCenterY shipV1.1 shipV1.2 angle)
        (rotate_point shipCenterX shipCenterY shipV3.1 shipV3.2 angle) = euclDist shipV1 shipV3 ∧
    euclDist (rotate_point shipCenterX shipCenterY shipV2.1 shipV2.2 angle)
        (rotate_point shipCenterX shipCenterY shipV3.1 shipV3.2 angle) = euclDist shipV2 shipV3 :=
  ⟨rotate_point_isometry _ _ angle _ _, rotate_point_isometry _ _ angle _ _,
    rotate_point_isometry _ _ angle _ _⟩

lemma ite_one_min (d : ℝ) : (if 1 < d then 1 else d) = min d 1 := by
  rcases le_or_lt d 1 with h | h
  · rw [if_neg (not_lt.mpr h), min_eq_left h]
  · rw [if_pos h, min_eq_right h.le]

lemma glow_alpha_eq_floor (radius x y : ℕ) :
    glow_alpha radius x y = ⌊(1 - min (normDist radius x y) 1) * 255⌋ := by
  simp only [glow_alpha, normDist]
  rw [show ((x : ℝ) - (radius : ℝ)) * ((x : ℝ) - (radius : ℝ)) +
        ((y : ℝ) - (radius : ℝ)) * ((y : ℝ) - (radius : ℝ)) =
      ((x : ℝ) - (radius : ℝ)) ^ 2 + ((y : ℝ) - (radius : ℝ)) ^ 2 from by ring, ite_one_min]

/-- Claim C4: the alpha of each glow-texture pixel is (1 - d) * 255 (as the
byte truncation, i.e. the floor) where d is the Euclidean distance from the
center normalized by the radius and clamped to at most 1; alpha is
non-increasing in the normalized distance over pixels with d ≤ 1, and every
pixel at normalized distance ≥ 1 has alpha 0. -/
theorem glow_alpha_gradient (radius x y x1 y1 x2 y2 : ℕ) :
    glow_alpha radius x y = ⌊(1 - min (normDist radius x y) 1) * 255⌋ ∧
    (normDist radius x1 y1 < normDist radius x2 y2 → normDist radius x2 y2 ≤ 1 →
      glow_alpha radius x2 y2 ≤ glow_alpha radius x1 y1) ∧
    (1 ≤ normDist radius x y → glow_alpha radius x y = 0) := by
  refine ⟨glow_alpha_eq_floor radius x y, ?_, ?_⟩
  · intro h12 h2
    rw [glow_alpha_eq_floor, glow_alpha_eq_floor,
      min_eq_left (le_of_lt (lt_of_lt_of_le h12 h2)), min_eq_left h2]
    exact Int.floor_le_floor (by nlinarith)
  · intro h
    rw [glow_alpha_eq_floor, min_eq_right h]
    norm_num

lemma normDist_center : normDist 40 40 40 = 0 := by
  unfold normDist
  norm_num

lemma normDist_top_edge : normDist 40 40 0 = 1 := by
  unfold normDist
  rw [show (((40 : ℕ) : ℝ) - ((40 : ℕ) : ℝ)) ^ 2 + (((0 : ℕ) : ℝ) - ((40 : ℕ) : ℝ)) ^ 2 =
      40 ^ 2 from by norm_num]
  rw [Real.sqrt_sq (by norm_num : (0 : ℝ) ≤ 40)]
  norm_num

/-- Witness for C4: at radius 40, the center pixel (distance 0) has alpha at
least that of the top-edge pixel (40, 0) (distance 1), whose alpha is 0. -/
theorem glow_alpha_gradient_witness :
    (normDist 40 40 40 < normDist 40 40 0 ∧ normDist 40 40 0 ≤ 1 ∧ 1 ≤ normDist 40 40 0) ∧
    glow_alpha 40 40 0 ≤ glow_alpha 40 40 40 ∧ glow_alpha 40 40 0 = 0 := by
  have h0 : normDist 40 40 40 = 0 := normDist_center
  have h1 : normDist 40 40 0 = 1 := normDist_top_edge
  refine ⟨⟨by rw [h0, h1]; exact zero_lt_one, h1.le, h1.ge⟩, ?_, ?_⟩
  · exact (glow_alpha_gradient 40 40 0 40 40 40 0).2.1
      (by rw [h0, h1]; exact zero_lt_one) h1.le
  · exact (glow_alpha_gradient 40 40 0 40 40 40 0).2.2 h1.ge

end SDLTutorials
